import Mathlib

/-!
# Verification of the TcpClient connection class

Shallow embedding of `src/tcp_client.cpp` / `src/tcp_client.h` (POSIX branch:
`SocketHandle = int`, the sentinel `invalid_socket()` is `-1`).

The platform socket layer is modelled by oracles: `::socket`, `::connect`,
`::send` and `::recv` results are supplied as functions, and every operation
additionally returns the list of platform system calls it performed, so that
claims of the form "performs no system call" are statable.  Exceptions become
`Except Err` results; since a C++ exception does not roll the object back,
each operation returns the state the object is left in together with the
result.  The human-readable platform error detail (`strerror` of the last
error code) is abstracted as a string supplied by the environment.
-/

/-- `SocketHandle` is `int` on the POSIX branch of `tcp_client.h`. -/
abbrev SocketHandle := Int

/-- `TcpClient::invalid_socket()` returns `-1` on POSIX. -/
def invalid_socket : SocketHandle := -1

/-- The two data members of `TcpClient`: `socket_` and `connected_`. -/
structure TcpClient where
  socket_ : SocketHandle
  connected_ : Bool
  deriving DecidableEq, Repr

/-- The exception kinds thrown by `tcp_client.cpp`: `std::invalid_argument`,
`std::logic_error` and `std::runtime_error`, each carrying a message. -/
inductive Err where
  | invalidArgument (msg : String)
  | logicError (msg : String)
  | runtimeError (msg : String)
  deriving DecidableEq, Repr

/-- One platform system call performed by the client.  `socketCall` records the
family/socktype/protocol passed to `::socket`; `connectCall` records the handle
and the index of the candidate address being connected to; `sendCall` records
the handle and the chunk length passed to `::send`; `recvCall` the handle and
buffer length passed to `::recv`; `closeCall` the handle passed to `::close`. -/
inductive SysCall where
  | getaddrinfoCall (host : String) (port : Nat)
  | socketCall (family socktype protocol : Int)
  | connectCall (handle : SocketHandle) (candidate : Nat)
  | sendCall (handle : SocketHandle) (chunk : Nat)
  | recvCall (handle : SocketHandle) (len : Nat)
  | closeCall (handle : SocketHandle)
  | freeaddrinfoCall
  deriving DecidableEq, Repr

/-- Result of running one `TcpClient` member function: the state the object is
left in, the returned value or thrown exception, and the platform system calls
performed (in order). -/
structure Outcome (α : Type) where
  state : TcpClient
  result : Except Err α
  calls : List SysCall
  deriving Repr

/-- One resolved candidate address, as in an `addrinfo` node: the
`ai_family` / `ai_socktype` / `ai_protocol` triple (the raw `ai_addr` bytes
are irrelevant to the control flow and are identified by the node's index). -/
structure Candidate where
  family : Int
  socktype : Int
  protocol : Int
  deriving DecidableEq, Repr

instance : Inhabited Candidate := ⟨⟨0, 0, 0⟩⟩

/-- The default constructor `TcpClient::TcpClient()`: `socket_` is the
sentinel and `connected_` is false.  (`initialize_platform()` is a no-op on
the POSIX branch.) -/
def TcpClient.init : TcpClient := ⟨invalid_socket, false⟩

/-- `TcpClient::reset_socket()`: sets `socket_` to the sentinel and
`connected_` to false. -/
def TcpClient.reset_socket (_ : TcpClient) : TcpClient := ⟨invalid_socket, false⟩

/-- `TcpClient::is_connected()`: returns `connected_`. -/
def TcpClient.is_connected (c : TcpClient) : Bool := c.connected_

/-- `TcpClient::close()`: if `socket_` is not the sentinel, `close_socket` it
(one `::close` system call); then `reset_socket()`.  Returns the new state
and the system calls performed; the C++ function never throws. -/
def TcpClient.close (c : TcpClient) : TcpClient × List SysCall :=
  if c.socket_ = invalid_socket then
    (c.reset_socket, [])
  else
    (c.reset_socket, [SysCall.closeCall c.socket_])

/-- `TcpClient::ensure_connected()`: throws `std::logic_error` when
`!connected_ || socket_ == invalid_socket()`. -/
def TcpClient.ensure_connected (c : TcpClient) : Except Err Unit :=
  if c.connected_ = false ∨ c.socket_ = invalid_socket then
    Except.error (Err.logicError "socket is not connected")
  else
    Except.ok ()

/-- The move constructor `TcpClient(TcpClient&&)`: the new object copies
`socket_` and `connected_` from `other`, then `other.reset_socket()`.
Returns (new object, moved-from object). -/
def TcpClient.moveConstruct (other : TcpClient) : TcpClient × TcpClient :=
  (⟨other.socket_, other.connected_⟩, other.reset_socket)

/-- The move assignment `operator=(TcpClient&&)` for distinct objects
(`this != &other`): `close()` the destination, copy `socket_` and
`connected_` from the source, then `other.reset_socket()`.  Returns
((new destination, moved-from source), system calls performed). -/
def TcpClient.moveAssign (dst src : TcpClient) : (TcpClient × TcpClient) × List SysCall :=
  ((⟨src.socket_, src.connected_⟩, src.reset_socket), dst.close.2)

/-- `std::numeric_limits<int>::max()`: the chunk clamp bound in `send`. -/
def intMax : Nat := 2147483647

/-- The chunk length the send loop passes to `::send` when `total_sent` bytes
of a `length`-byte buffer have been sent: `remaining > INT_MAX ? INT_MAX :
remaining`. -/
def chunkOf (length total_sent : Nat) : Nat :=
  min (length - total_sent) intMax

/-- The `while (total_sent < length)` loop of `TcpClient::send(const void*,
std::size_t)`.  `sendSys total_sent` is the oracle for the `::send` result of
the call issued when `total_sent` bytes have been sent so far; `d` is the
formatted platform error detail used when a call fails.  Returns the
result (total bytes, or the thrown exception) and the `::send` calls made. -/
def send_loop (sendSys : Nat → Int) (d : String) (handle : SocketHandle)
    (length total_sent : Nat) : Except Err Nat × List SysCall :=
  if hlt : total_sent < length then
    let chunk := chunkOf length total_sent
    let sent := sendSys total_sent
    if hle : sent ≤ 0 then
      (Except.error (Err.runtimeError ("send failed: " ++ d)),
        [SysCall.sendCall handle chunk])
    else
      let rest := send_loop sendSys d handle length (total_sent + sent.toNat)
      (rest.1, SysCall.sendCall handle chunk :: rest.2)
  else
    (Except.ok total_sent, [])
termination_by length - total_sent
decreasing_by omega

/-- `TcpClient::send(const void* data, std::size_t length)`.  `dataNull`
models `data == nullptr`.  First `ensure_connected()`, then the null-pointer
check, then the send loop.  The state is returned unchanged (the function
never mutates `socket_` or `connected_`). -/
def TcpClient.send (c : TcpClient) (dataNull : Bool) (length : Nat)
    (sendSys : Nat → Int) (d : String) : Outcome Nat :=
  match c.ensure_connected with
  | Except.error e => ⟨c, Except.error e, []⟩
  | Except.ok _ =>
    if dataNull = true ∧ 0 < length then
      ⟨c, Except.error (Err.invalidArgument "data pointer must not be null when length > 0"), []⟩
    else
      let r := send_loop sendSys d c.socket_ length 0
      ⟨c, r.1, r.2⟩

/-- `TcpClient::send(const std::string& data)`: returns 0 when `data` is
empty (before any connectivity check), else forwards to the raw overload with
`data.data()` (never null) and `data.size()`. -/
def TcpClient.sendStr (c : TcpClient) (data : String)
    (sendSys : Nat → Int) (d : String) : Outcome Nat :=
  if data.isEmpty then
    ⟨c, Except.ok 0, []⟩
  else
    c.send false data.length sendSys d

/-- `TcpClient::receive(std::size_t max_bytes)` (POSIX branch).  `recvRes` is
the oracle for the single `::recv` result; `d` the formatted platform error
detail.  The returned string is modelled by its length (`buffer.resize`
truncates the `max_bytes` buffer to the bytes actually read). -/
def TcpClient.receive (c : TcpClient) (max_bytes : Nat) (recvRes : Int)
    (d : String) : Outcome Nat :=
  match c.ensure_connected with
  | Except.error e => ⟨c, Except.error e, []⟩
  | Except.ok _ =>
    if max_bytes = 0 then
      ⟨c, Except.ok 0, []⟩
    else
      if 0 < recvRes then
        ⟨c, Except.ok recvRes.toNat, [SysCall.recvCall c.socket_ max_bytes]⟩
      else if recvRes = 0 then
        let cl := c.close
        ⟨cl.1, Except.ok 0, SysCall.recvCall c.socket_ max_bytes :: cl.2⟩
      else
        ⟨c, Except.error (Err.runtimeError ("receive failed: " ++ d)),
          [SysCall.recvCall c.socket_ max_bytes]⟩

/-- The candidate loop of `TcpClient::connect`: for the list of resolved
candidates starting at index `i`, `socketRes i` is the oracle for the handle
returned by `::socket` for candidate `i` (the sentinel models failure) and
`connectRes i` the oracle for its `::connect` result.  A candidate whose
`::socket` fails is skipped (`continue`); a candidate whose `::connect` fails
has its socket closed before advancing; the first successful candidate's
handle is adopted and the loop stops.  Returns the final `handle` value and
the system calls performed. -/
def connect_loop (socketRes connectRes : Nat → Int) :
    List Candidate → Nat → SocketHandle × List SysCall
  | [], _ => (invalid_socket, [])
  | cand :: rest, i =>
    let h := socketRes i
    let sc := SysCall.socketCall cand.family cand.socktype cand.protocol
    if h = invalid_socket then
      let r := connect_loop socketRes connectRes rest (i + 1)
      (r.1, sc :: r.2)
    else if connectRes i = 0 then
      (h, [sc, SysCall.connectCall h i])
    else
      let r := connect_loop socketRes connectRes rest (i + 1)
      (r.1, sc :: SysCall.connectCall h i :: SysCall.closeCall h :: r.2)

/-- `TcpClient::connect(host, port)`.  `resolveRes` is the oracle for the
`::getaddrinfo` outcome: `Except.error detail` models a nonzero return code or
a null result chain (the thrown message embeds the detail), `Except.ok cands`
a non-null chain of candidates.  `socketRes`/`connectRes` drive the candidate
loop and `d` is the formatted platform error detail for the final
`connect failed` exception.  (`initialize_platform()` is a no-op on POSIX.) -/
def TcpClient.connect (c : TcpClient) (host : String) (port : Nat)
    (resolveRes : Except String (List Candidate))
    (socketRes connectRes : Nat → Int) (d : String) : Outcome Unit :=
  if host.isEmpty then
    ⟨c, Except.error (Err.invalidArgument "host must not be empty"), []⟩
  else
    let cl := c.close
    match resolveRes with
    | Except.error detail =>
      ⟨cl.1, Except.error (Err.runtimeError ("getaddrinfo failed: " ++ detail)),
        cl.2 ++ [SysCall.getaddrinfoCall host port]⟩
    | Except.ok cands =>
      let lp := connect_loop socketRes connectRes cands 0
      let allCalls :=
        cl.2 ++ SysCall.getaddrinfoCall host port :: (lp.2 ++ [SysCall.freeaddrinfoCall])
      if lp.1 = invalid_socket then
        ⟨cl.1, Except.error (Err.runtimeError ("connect failed: " ++ d)), allCalls⟩
      else
        ⟨⟨lp.1, true⟩, Except.ok (), allCalls⟩

/-- The state invariant of section 3 of the design: `connected_` true forces a
non-sentinel `socket_`, `connected_` false forces the sentinel. -/
def StateInv (c : TcpClient) : Prop :=
  (c.connected_ = true → c.socket_ ≠ invalid_socket) ∧
  (c.connected_ = false → c.socket_ = invalid_socket)

/-- Candidate attempt `i` succeeds: its `::socket` call returned a valid
handle and its `::connect` call returned 0. -/
def attemptSucceeds (socketRes connectRes : Nat → Int) (i : Nat) : Prop :=
  socketRes i ≠ invalid_socket ∧ connectRes i = 0

instance (socketRes connectRes : Nat → Int) (i : Nat) :
    Decidable (attemptSucceeds socketRes connectRes i) := by
  unfold attemptSucceeds
  infer_instance

/-- The system calls the spec's connection-attempt policy prescribes for
candidate `cand` at index `i`: open a socket matching the candidate's
family/type/protocol; if that succeeded, attempt a blocking connect; if the
connect failed, close that candidate's socket before advancing. -/
def attemptCalls (socketRes connectRes : Nat → Int) (cand : Candidate) (i : Nat) :
    List SysCall :=
  let sc := SysCall.socketCall cand.family cand.socktype cand.protocol
  if socketRes i = invalid_socket then
    [sc]
  else if connectRes i = 0 then
    [sc, SysCall.connectCall (socketRes i) i]
  else
    [sc, SysCall.connectCall (socketRes i) i, SysCall.closeCall (socketRes i)]

/-- Concatenation of `f 0 ++ f 1 ++ ... ++ f (n-1)`: the trace of the first
`n` candidate attempts in resolver-provided order. -/
def joinUpTo (f : Nat → List SysCall) : Nat → List SysCall
  | 0 => []
  | n + 1 => joinUpTo f n ++ f n

/-- The states a `TcpClient` object can reach through its public interface:
default construction followed by any sequence of member-function calls under
arbitrary platform behaviour (both ends of a move are tracked). -/
inductive Reachable : TcpClient → Prop where
  | init : Reachable TcpClient.init
  | connect (c : TcpClient) (host : String) (port : Nat)
      (resolveRes : Except String (List Candidate))
      (socketRes connectRes : Nat → Int) (d : String) :
      Reachable c → Reachable (c.connect host port resolveRes socketRes connectRes d).state
  | send (c : TcpClient) (dataNull : Bool) (length : Nat)
      (sendSys : Nat → Int) (d : String) :
      Reachable c → Reachable (c.send dataNull length sendSys d).state
  | sendStr (c : TcpClient) (data : String) (sendSys : Nat → Int) (d : String) :
      Reachable c → Reachable (c.sendStr data sendSys d).state
  | receive (c : TcpClient) (max_bytes : Nat) (recvRes : Int) (d : String) :
      Reachable c → Reachable (c.receive max_bytes recvRes d).state
  | close (c : TcpClient) : Reachable c → Reachable c.close.1
  | moveConstructDst (c : TcpClient) : Reachable c → Reachable c.moveConstruct.1
  | moveConstructSrc (c : TcpClient) : Reachable c → Reachable c.moveConstruct.2
  | moveAssignDst (dst src : TcpClient) :
      Reachable dst → Reachable src → Reachable (dst.moveAssign src).1.1
  | moveAssignSrc (dst src : TcpClient) :
      Reachable dst → Reachable src → Reachable (dst.moveAssign src).1.2

/-- The send loop, started with `total_sent ≤ length` and driven by a `::send`
oracle that never reports more bytes than the chunk it was given, either
returns the full `length` or the thrown transfer error: no other result is
possible, whatever the oracle does. -/
theorem send_loop_all_or_error (sendSys : Nat → Int) (d : String) (handle : SocketHandle)
    (length : Nat) (hb : ∀ t, t < length → sendSys t ≤ (chunkOf length t : Int)) :
    ∀ fuel total_sent, length - total_sent ≤ fuel → total_sent ≤ length →
      (send_loop sendSys d handle length total_sent).1 = Except.ok length ∨
      (send_loop sendSys d handle length total_sent).1
          = Except.error (Err.runtimeError ("send failed: " ++ d)) := by
  intro fuel
  induction fuel with
  | zero =>
    intro t hf ht
    have hteq : t = length := by omega
    subst hteq
    rw [send_loop]
    simp
  | succ n ih =>
    intro t hf ht
    rw [send_loop]
    split
    · case isTrue hlt =>
      dsimp only
      split
      · case isTrue hle => right; rfl
      · case isFalse hle =>
        have hbt := hb t hlt
        unfold chunkOf intMax at hbt
        exact ih (t + (sendSys t).toNat) (by omega) (by omega)
    · case isFalse hlt =>
      left
      have hteq : t = length := by omega
      simp [hteq]

/-- C1: on a connected instance, send(buf, N) either returns exactly N or
throws; no value strictly between 0 and N is ever returned, and partial
progress made before a failing platform write is not reported (the thrown
error carries only a message, never a byte count).  The oracle hypothesis
`hb` states the platform guarantee that `::send` never reports more bytes
than the chunk it was given. -/
theorem send_all_or_nothing (c : TcpClient) (dataNull : Bool) (length : Nat)
    (sendSys : Nat → Int) (d : String)
    (hconn : c.connected_ = true) (hsock : c.socket_ ≠ invalid_socket)
    (hb : ∀ t, t < length → sendSys t ≤ (chunkOf length t : Int)) :
    (c.send dataNull length sendSys d).result = Except.ok length ∨
    ∃ e, (c.send dataNull length sendSys d).result = Except.error e := by
  unfold TcpClient.send TcpClient.ensure_connected
  simp only [hconn, hsock]
  simp only [Bool.true_eq_false, false_or, if_neg (hsock ·)]
  by_cases hd : dataNull = true ∧ 0 < length
  · simp only [if_pos hd]
    right
    exact ⟨_, rfl⟩
  · simp only [if_neg hd]
    rcases send_loop_all_or_error sendSys d c.socket_ length hb length 0 (by omega) (by omega)
      with h | h
    · left; exact h
    · right; exact ⟨_, h⟩

theorem send_all_or_nothing_witness :
    (TcpClient.send ⟨5, true⟩ false 3 (fun _ => 1) "e").result = Except.ok 3 ∨
    ∃ e, (TcpClient.send ⟨5, true⟩ false 3 (fun _ => 1) "e").result = Except.error e := by
  apply send_all_or_nothing ⟨5, true⟩ false 3 (fun _ => 1) "e" rfl (by decide)
  intro t ht
  simp only [chunkOf, intMax]
  omega

/-- C4: for every empty host string and every port, connect throws
`std::invalid_argument` without attempting name resolution (no system call at
all, in particular no `::getaddrinfo`) and without touching the state. -/
theorem connect_empty_host_invalid_argument (c : TcpClient) (host : String) (port : Nat)
    (resolveRes : Except String (List Candidate)) (socketRes connectRes : Nat → Int)
    (d : String) (hh : host.isEmpty = true) :
    (c.connect host port resolveRes socketRes connectRes d).result
        = Except.error (Err.invalidArgument "host must not be empty") ∧
    (c.connect host port resolveRes socketRes connectRes d).calls = [] ∧
    (c.connect host port resolveRes socketRes connectRes d).state = c := by
  unfold TcpClient.connect
  simp [hh]

theorem connect_empty_host_invalid_argument_witness :
    (TcpClient.init.connect "" 80 (Except.ok []) (fun _ => -1) (fun _ => -1) "e").result
        = Except.error (Err.invalidArgument "host must not be empty") :=
  (connect_empty_host_invalid_argument TcpClient.init "" 80 (Except.ok [])
    (fun _ => -1) (fun _ => -1) "e" rfl).1

/-- C7: close is idempotent and never fails (structurally, `close` has no
error channel at all): every call resets the state to the sentinel/not
connected pair whether or not a socket was held, `is_connected` is false
afterwards, closing an already-closed instance is a no-op performing no
system call, and a second close after any close changes nothing and performs
no system call. -/
theorem close_idempotent_resets (c : TcpClient) :
    c.close.1 = ⟨invalid_socket, false⟩ ∧
    c.close.1.is_connected = false ∧
    TcpClient.close ⟨invalid_socket, false⟩ = (⟨invalid_socket, false⟩, []) ∧
    c.close.1.close = (c.close.1, []) := by
  by_cases h : c.socket_ = invalid_socket <;>
    simp [TcpClient.close, TcpClient.reset_socket, TcpClient.is_connected, h]

/-- C6: on a connected instance, a receive whose `::recv` returns zero bytes
(peer orderly shutdown) is a success (`Except.ok`), yields an empty result,
and moves the instance to the not-connected sentinel state, so
`is_connected` is false afterwards. -/
theorem receive_zero_read_closes (c : TcpClient) (max_bytes : Nat) (d : String)
    (hconn : c.connected_ = true) (hsock : c.socket_ ≠ invalid_socket)
    (hm : max_bytes ≠ 0) :
    (c.receive max_bytes 0 d).result = Except.ok 0 ∧
    (c.receive max_bytes 0 d).state = ⟨invalid_socket, false⟩ ∧
    (c.receive max_bytes 0 d).state.is_connected = false := by
  unfold TcpClient.receive TcpClient.ensure_connected
  simp [hconn, hsock, hm, TcpClient.close, TcpClient.reset_socket, TcpClient.is_connected]

theorem receive_zero_read_closes_witness :
    (TcpClient.receive ⟨3, true⟩ 4096 0 "e").result = Except.ok 0 ∧
    (TcpClient.receive ⟨3, true⟩ 4096 0 "e").state.is_connected = false := by
  have h := receive_zero_read_closes ⟨3, true⟩ 4096 "e" rfl (by decide) (by decide)
  exact ⟨h.1, h.2.2⟩

/-- The empty string literal is empty; used to reduce the empty-string check
of the string send overload. -/
theorem empty_string_isEmpty : "".isEmpty = true := rfl

/-- C2 counterexample: the claim says every send invocation on a
not-connected instance fails with LogicError, but the string overload checks
for an empty string before `ensure_connected`, so `send("")` on a freshly
constructed (not-connected) instance succeeds with 0. -/
theorem sendStr_empty_not_connected_succeeds :
    TcpClient.init.connected_ = false ∧
    (TcpClient.init.sendStr "" (fun _ => 1) "e").result = Except.ok 0 := by
  constructor
  · rfl
  · rfl

/-- C2 amended: on a not-connected instance, every raw-overload send, every
send of a nonempty string and every receive fail with LogicError and perform
no system call; the single exception is the string overload applied to an
empty string, which returns 0, also with no system call and no state
change. -/
theorem not_connected_ops_logic_error (c : TcpClient) (hc : c.connected_ = false) :
    (∀ dataNull length sendSys d,
        (c.send dataNull length sendSys d).result
            = Except.error (Err.logicError "socket is not connected") ∧
        (c.send dataNull length sendSys d).calls = [] ∧
        (c.send dataNull length sendSys d).state = c) ∧
    (∀ data sendSys d, data.isEmpty = false →
        (c.sendStr data sendSys d).result
            = Except.error (Err.logicError "socket is not connected") ∧
        (c.sendStr data sendSys d).calls = []) ∧
    (∀ sendSys d,
        (c.sendStr "" sendSys d).result = Except.ok 0 ∧
        (c.sendStr "" sendSys d).calls = [] ∧
        (c.sendStr "" sendSys d).state = c) ∧
    (∀ max_bytes recvRes d,
        (c.receive max_bytes recvRes d).result
            = Except.error (Err.logicError "socket is not connected") ∧
        (c.receive max_bytes recvRes d).calls = []) := by
  refine ⟨?_, ?_, ?_, ?_⟩ <;> intros <;>
    simp_all [TcpClient.send, TcpClient.sendStr, TcpClient.receive,
      TcpClient.ensure_connected, empty_string_isEmpty]

theorem not_connected_ops_logic_error_witness :
    (TcpClient.init.receive 4096 1 "e").result
        = Except.error (Err.logicError "socket is not connected") :=
  ((not_connected_ops_logic_error TcpClient.init rfl).2.2.2 4096 1 "e").1

/-- C3 counterexample: the claim says send with length 0 returns 0 on every
instance, but the raw overload runs `ensure_connected()` before the length is
even looked at, so on a not-connected instance send(ptr, 0) throws
LogicError instead of returning 0. -/
theorem send_zero_length_not_connected_throws :
    TcpClient.init.connected_ = false ∧
    (TcpClient.init.send false 0 (fun _ => 1) "e").result
        = Except.error (Err.logicError "socket is not connected") := by
  constructor
  · rfl
  · rfl

/-- C3 amended: send of an empty string returns 0 immediately on every
instance, with no system call and no state change; send with length 0
through the raw overload performs no blocking call on any instance and
returns 0 whenever the existing-state connectivity check passes, but throws
LogicError (still with no system call) on a not-connected instance. -/
theorem send_zero_length_behaviour (c : TcpClient) :
    (∀ sendSys d, (c.sendStr "" sendSys d).result = Except.ok 0 ∧
        (c.sendStr "" sendSys d).calls = [] ∧ (c.sendStr "" sendSys d).state = c) ∧
    (∀ dataNull sendSys d, c.connected_ = true → c.socket_ ≠ invalid_socket →
        (c.send dataNull 0 sendSys d).result = Except.ok 0 ∧
        (c.send dataNull 0 sendSys d).calls = []) ∧
    (∀ dataNull sendSys d, c.connected_ = false →
        (c.send dataNull 0 sendSys d).result
            = Except.error (Err.logicError "socket is not connected") ∧
        (c.send dataNull 0 sendSys d).calls = []) := by
  refine ⟨?_, ?_, ?_⟩ <;> intros <;>
    simp_all [TcpClient.send, TcpClient.sendStr, TcpClient.ensure_connected, send_loop,
      empty_string_isEmpty]

theorem send_zero_length_behaviour_witness :
    (TcpClient.sendStr ⟨5, true⟩ "" (fun _ => 1) "e").result = Except.ok 0 ∧
    (TcpClient.send ⟨5, true⟩ false 0 (fun _ => 1) "e").result = Except.ok 0 ∧
    (TcpClient.send TcpClient.init true 0 (fun _ => 1) "e").result
        = Except.error (Err.logicError "socket is not connected") :=
  ⟨((send_zero_length_behaviour ⟨5, true⟩).1 (fun _ => 1) "e").1,
    ((send_zero_length_behaviour ⟨5, true⟩).2.1 false (fun _ => 1) "e" rfl (by decide)).1,
    ((send_zero_length_behaviour TcpClient.init).2.2 true (fun _ => 1) "e" rfl).1⟩

/-- C8: the move constructor copies the handle and connected flag into the
destination and resets the source to the sentinel state, so from a connected
A the destination reports connected with A's handle while the source reports
not connected, and a subsequent close of the moved-from source is a no-op
(no state change, no system call, hence no effect on the destination's
handle); move assignment first closes whatever socket the destination held
(one `::close` of the destination's old handle when one was held), then takes
the source's handle and flag and resets the source. -/
theorem move_transfers_ownership (A dst src : TcpClient) (hA : A.connected_ = true) :
    A.moveConstruct.1.is_connected = true ∧
    A.moveConstruct.1.socket_ = A.socket_ ∧
    A.moveConstruct.2.is_connected = false ∧
    A.moveConstruct.2.close = (A.moveConstruct.2, []) ∧
    (dst.moveAssign src).1.1 = ⟨src.socket_, src.connected_⟩ ∧
    (dst.moveAssign src).1.2 = ⟨invalid_socket, false⟩ ∧
    (dst.moveAssign src).2 = dst.close.2 ∧
    (dst.socket_ ≠ invalid_socket →
      (dst.moveAssign src).2 = [SysCall.closeCall dst.socket_]) := by
  refine ⟨?_, rfl, rfl, ?_, rfl, rfl, rfl, ?_⟩
  · simp [TcpClient.moveConstruct, TcpClient.is_connected, hA]
  · simp [TcpClient.moveConstruct, TcpClient.close, TcpClient.reset_socket]
  · intro h
    simp [TcpClient.moveAssign, TcpClient.close, h]

theorem move_transfers_ownership_witness :
    (TcpClient.moveConstruct ⟨5, true⟩).1.is_connected = true ∧
    (TcpClient.moveConstruct ⟨5, true⟩).2.is_connected = false ∧
    (TcpClient.moveAssign ⟨7, true⟩ ⟨5, true⟩).2 = [SysCall.closeCall 7] := by
  have h := move_transfers_ownership ⟨5, true⟩ ⟨7, true⟩ ⟨5, true⟩ rfl
  exact ⟨h.1, h.2.2.1, h.2.2.2.2.2.2.2 (by decide)⟩

/-- C10: calling connect with an empty host on a connected instance throws
`std::invalid_argument` before the existing socket is closed, so the
instance keeps its handle and stays connected (no system call is made); by
contrast, once the empty-host check has passed, the prior socket is closed
before resolution begins (the very first system call is the `::close` of the
old handle), so any failure after that point leaves the instance in the
not-connected sentinel state. -/
theorem connect_error_state (c : TcpClient) (host : String) (port : Nat)
    (resolveRes : Except String (List Candidate)) (socketRes connectRes : Nat → Int)
    (d : String) (hc : c.connected_ = true) (hs : c.socket_ ≠ invalid_socket) :
    ((c.connect "" port resolveRes socketRes connectRes d).state = c ∧
     (c.connect "" port resolveRes socketRes connectRes d).state.is_connected = true ∧
     (c.connect "" port resolveRes socketRes connectRes d).result
        = Except.error (Err.invalidArgument "host must not be empty") ∧
     (c.connect "" port resolveRes socketRes connectRes d).calls = []) ∧
    (host.isEmpty = false →
      (c.connect host port resolveRes socketRes connectRes d).calls.head?
          = some (SysCall.closeCall c.socket_) ∧
      (∀ e, (c.connect host port resolveRes socketRes connectRes d).result
              = Except.error e →
        (c.connect host port resolveRes socketRes connectRes d).state
            = ⟨invalid_socket, false⟩)) := by
  constructor
  · refine ⟨?_, ?_, ?_, ?_⟩ <;>
      simp [TcpClient.connect, TcpClient.is_connected, hc, empty_string_isEmpty]
  · intro hne
    unfold TcpClient.connect
    simp only [hne, Bool.false_eq_true, if_false]
    cases resolveRes with
    | error msg =>
      simp [TcpClient.close, TcpClient.reset_socket, hs]
    | ok cands =>
      dsimp only
      split
      · simp [TcpClient.close, TcpClient.reset_socket, hs]
      · simp [TcpClient.close, TcpClient.reset_socket, hs]

theorem connect_error_state_witness :
    (TcpClient.connect ⟨3, true⟩ "" 80 (Except.error "x") (fun _ => -1) (fun _ => -1)
        "e").state = ⟨3, true⟩ ∧
    (TcpClient.connect ⟨3, true⟩ "h" 80 (Except.error "x") (fun _ => -1) (fun _ => -1)
        "e").state = ⟨invalid_socket, false⟩ := by
  have h := connect_error_state ⟨3, true⟩ "h" 80 (Except.error "x") (fun _ => -1)
    (fun _ => -1) "e" rfl (by decide)
  exact ⟨h.1.1, (h.2 (by decide)).2 (Err.runtimeError ("getaddrinfo failed: " ++ "x")) rfl⟩

/-- The sentinel/not-connected pair satisfies the state invariant. -/
theorem stateInv_sentinel : StateInv ⟨invalid_socket, false⟩ := by
  constructor <;> intro h <;> simp_all

/-- A default-constructed client satisfies the state invariant. -/
theorem stateInv_init : StateInv TcpClient.init :=
  stateInv_sentinel

/-- close always leaves the object in the sentinel/not-connected state. -/
theorem close_fst (c : TcpClient) : c.close.1 = ⟨invalid_socket, false⟩ := by
  unfold TcpClient.close TcpClient.reset_socket
  split <;> rfl

/-- send never changes the object's state. -/
theorem send_state_eq (c : TcpClient) (dataNull : Bool) (length : Nat)
    (sendSys : Nat → Int) (d : String) :
    (c.send dataNull length sendSys d).state = c := by
  unfold TcpClient.send
  cases h : c.ensure_connected with
  | error e => rfl
  | ok u =>
    dsimp only
    split <;> rfl

/-- The string send overload never changes the object's state. -/
theorem sendStr_state_eq (c : TcpClient) (data : String)
    (sendSys : Nat → Int) (d : String) :
    (c.sendStr data sendSys d).state = c := by
  unfold TcpClient.sendStr
  split
  · rfl
  · exact send_state_eq c false data.length sendSys d

/-- receive preserves the state invariant: it leaves the state alone except
on a zero-byte read, where it closes to the sentinel state. -/
theorem stateInv_receive (c : TcpClient) (max_bytes : Nat) (recvRes : Int)
    (d : String) (h : StateInv c) :
    StateInv (c.receive max_bytes recvRes d).state := by
  unfold TcpClient.receive
  cases he : c.ensure_connected with
  | error e => exact h
  | ok u =>
    dsimp only
    split
    · exact h
    · split
      · exact h
      · split
        · rw [close_fst]
          exact stateInv_sentinel
        · exact h

/-- connect preserves the state invariant: its error paths leave either the
untouched old state or the sentinel state, and its success path installs a
handle that was checked against the sentinel. -/
theorem stateInv_connect (c : TcpClient) (host : String) (port : Nat)
    (rr : Except String (List Candidate)) (sr cr : Nat → Int) (d : String)
    (h : StateInv c) :
    StateInv (c.connect host port rr sr cr d).state := by
  unfold TcpClient.connect
  split
  · exact h
  · cases rr with
    | error msg =>
      dsimp only
      rw [close_fst]
      exact stateInv_sentinel
    | ok cands =>
      dsimp only
      split
      · rw [close_fst]
        exact stateInv_sentinel
      · case isFalse hinv =>
        constructor
        · intro _
          exact hinv
        · intro hfalse
          simp at hfalse

/-- The destination of a move construction inherits the source's fields and
so its invariant. -/
theorem stateInv_moveConstruct_fst (c : TcpClient) (h : StateInv c) :
    StateInv c.moveConstruct.1 :=
  h

/-- C9: every state reachable through the public interface (default
construction followed by any sequence of connect / send / receive / close /
move operations under arbitrary platform behaviour) satisfies the invariant:
connected implies a valid non-sentinel handle, and not connected implies the
sentinel handle, so the two fields are never independently inconsistent. -/
theorem reachable_stateInv (c : TcpClient) (h : Reachable c) : StateInv c := by
  induction h with
  | init => exact stateInv_init
  | connect c host port rr sr cr d _ ih => exact stateInv_connect c host port rr sr cr d ih
  | send c dataNull length sendSys d _ ih =>
    rw [send_state_eq]
    exact ih
  | sendStr c data sendSys d _ ih =>
    rw [sendStr_state_eq]
    exact ih
  | receive c max_bytes recvRes d _ ih => exact stateInv_receive c max_bytes recvRes d ih
  | close c _ _ =>
    rw [close_fst]
    exact stateInv_sentinel
  | moveConstructDst c _ ih => exact stateInv_moveConstruct_fst c ih
  | moveConstructSrc c _ _ => exact stateInv_sentinel
  | moveAssignDst dst src _ _ _ ihsrc => exact ihsrc
  | moveAssignSrc dst src _ _ _ _ => exact stateInv_sentinel

theorem reachable_stateInv_witness : StateInv TcpClient.init :=
  reachable_stateInv TcpClient.init Reachable.init

/-- Splitting the first attempt off a block of consecutive attempt traces. -/
theorem joinUpTo_shift (f : Nat → List SysCall) (n : Nat) :
    joinUpTo f (n + 1) = f 0 ++ joinUpTo (fun j => f (j + 1)) n := by
  induction n with
  | zero => simp [joinUpTo]
  | succ m ih =>
    have h1 : joinUpTo f (m + 1 + 1) = joinUpTo f (m + 1) ++ f (m + 1) := rfl
    have h2 : joinUpTo (fun j => f (j + 1)) (m + 1)
        = joinUpTo (fun j => f (j + 1)) m ++ f (m + 1) := rfl
    rw [h1, ih, h2, List.append_assoc]

/-- When candidate `k` (counting from start index `i`) is the first attempt
to succeed, the candidate loop stops there, adopts that candidate's socket,
and its trace is exactly the attempts for candidates `0..k` in
resolver-provided order. -/
theorem connect_loop_first_success (socketRes connectRes : Nat → Int) :
    ∀ (cands : List Candidate) (i k : Nat), k < cands.length →
      attemptSucceeds socketRes connectRes (i + k) →
      (∀ j, j < k → ¬ attemptSucceeds socketRes connectRes (i + j)) →
      connect_loop socketRes connectRes cands i =
        (socketRes (i + k),
         joinUpTo (fun j => attemptCalls socketRes connectRes (cands.getD j default) (i + j))
           (k + 1)) := by
  intro cands
  induction cands with
  | nil =>
    intro i k hk hs hm
    simp at hk
  | cons cand rest ih =>
    intro i k hk hs hm
    cases k with
    | zero =>
      have hs1 : socketRes i ≠ invalid_socket := by simpa using hs.1
      have hs2 : connectRes i = 0 := by simpa using hs.2
      simp [connect_loop, joinUpTo, attemptCalls, hs1, hs2]
    | succ k' =>
      have hadd : i + (k' + 1) = (i + 1) + k' := by omega
      have hs' : attemptSucceeds socketRes connectRes ((i + 1) + k') := by rwa [hadd] at hs
      have hm' : ∀ j, j < k' → ¬ attemptSucceeds socketRes connectRes ((i + 1) + j) := by
        intro j hj
        have h0 := hm (j + 1) (by omega)
        rwa [show i + (j + 1) = (i + 1) + j by omega] at h0
      have hk' : k' < rest.length := by simpa using hk
      have hrec := ih (i + 1) k' hk' hs' hm'
      have hfail : ¬ attemptSucceeds socketRes connectRes i := by
        simpa using hm 0 (by omega)
      have hfun : (fun j => attemptCalls socketRes connectRes
            ((cand :: rest).getD (j + 1) default) (i + (j + 1)))
          = (fun j => attemptCalls socketRes connectRes (rest.getD j default)
            ((i + 1) + j)) := by
        funext j
        rw [show i + (j + 1) = (i + 1) + j by omega]
        rfl
      have hshift := joinUpTo_shift
        (fun j => attemptCalls socketRes connectRes ((cand :: rest).getD j default) (i + j))
        (k' + 1)
      rw [hfun] at hshift
      by_cases h1 : socketRes i = invalid_socket
      · have hstep : connect_loop socketRes connectRes (cand :: rest) i
            = ((connect_loop socketRes connectRes rest (i + 1)).1,
               SysCall.socketCall cand.family cand.socktype cand.protocol ::
                 (connect_loop socketRes connectRes rest (i + 1)).2) := by
          simp [connect_loop, h1]
        rw [hstep, hrec, hadd, hshift]
        simp [attemptCalls, h1]
      · have h2 : ¬ connectRes i = 0 := fun h2 => hfail ⟨h1, h2⟩
        have hstep : connect_loop socketRes connectRes (cand :: rest) i
            = ((connect_loop socketRes connectRes rest (i + 1)).1,
               SysCall.socketCall cand.family cand.socktype cand.protocol ::
                 SysCall.connectCall (socketRes i) i ::
                 SysCall.closeCall (socketRes i) ::
                 (connect_loop socketRes connectRes rest (i + 1)).2) := by
          simp [connect_loop, h1, h2]
        rw [hstep, hrec, hadd, hshift]
        simp [attemptCalls, h1, h2]

/-- When no candidate attempt succeeds, the candidate loop ends with the
sentinel handle after trying every candidate in order, closing each
successfully created socket along the way. -/
theorem connect_loop_all_fail (socketRes connectRes : Nat → Int) :
    ∀ (cands : List Candidate) (i : Nat),
      (∀ j, j < cands.length → ¬ attemptSucceeds socketRes connectRes (i + j)) →
      connect_loop socketRes connectRes cands i =
        (invalid_socket,
         joinUpTo (fun j => attemptCalls socketRes connectRes (cands.getD j default) (i + j))
           cands.length) := by
  intro cands
  induction cands with
  | nil =>
    intro i hm
    simp [connect_loop, joinUpTo]
  | cons cand rest ih =>
    intro i hm
    have hfail : ¬ attemptSucceeds socketRes connectRes i := by
      simpa using hm 0 (by simp)
    have hm' : ∀ j, j < rest.length → ¬ attemptSucceeds socketRes connectRes ((i + 1) + j) := by
      intro j hj
      have h0 := hm (j + 1) (by simp; omega)
      rwa [show i + (j + 1) = (i + 1) + j by omega] at h0
    have hrec := ih (i + 1) hm'
    have hfun : (fun j => attemptCalls socketRes connectRes
          ((cand :: rest).getD (j + 1) default) (i + (j + 1)))
        = (fun j => attemptCalls socketRes connectRes (rest.getD j default)
          ((i + 1) + j)) := by
      funext j
      rw [show i + (j + 1) = (i + 1) + j by omega]
      rfl
    have hshift := joinUpTo_shift
      (fun j => attemptCalls socketRes connectRes ((cand :: rest).getD j default) (i + j))
      rest.length
    rw [hfun] at hshift
    have hlen : (cand :: rest).length = rest.length + 1 := rfl
    by_cases h1 : socketRes i = invalid_socket
    · have hstep : connect_loop socketRes connectRes (cand :: rest) i
          = ((connect_loop socketRes connectRes rest (i + 1)).1,
             SysCall.socketCall cand.family cand.socktype cand.protocol ::
               (connect_loop socketRes connectRes rest (i + 1)).2) := by
        simp [connect_loop, h1]
      rw [hstep, hrec, hlen, hshift]
      simp [attemptCalls, h1]
    · have h2 : ¬ connectRes i = 0 := fun h2 => hfail ⟨h1, h2⟩
      have hstep : connect_loop socketRes connectRes (cand :: rest) i
          = ((connect_loop socketRes connectRes rest (i + 1)).1,
             SysCall.socketCall cand.family cand.socktype cand.protocol ::
               SysCall.connectCall (socketRes i) i ::
               SysCall.closeCall (socketRes i) ::
               (connect_loop socketRes connectRes rest (i + 1)).2) := by
        simp [connect_loop, h1, h2]
      rw [hstep, hrec, hlen, hshift]
      simp [attemptCalls, h1, h2]

/-- Unfolding connect for a nonempty host whose resolution returned a
candidate chain: the behaviour is decided by the candidate loop's final
handle. -/
theorem connect_ok_unfold (c : TcpClient) (host : String) (port : Nat)
    (cands : List Candidate) (sr cr : Nat → Int) (d : String)
    (hh : host.isEmpty = false) :
    c.connect host port (Except.ok cands) sr cr d =
      (if (connect_loop sr cr cands 0).1 = invalid_socket then
        ⟨c.close.1, Except.error (Err.runtimeError ("connect failed: " ++ d)),
          c.close.2 ++ SysCall.getaddrinfoCall host port ::
            ((connect_loop sr cr cands 0).2 ++ [SysCall.freeaddrinfoCall])⟩
      else
        ⟨⟨(connect_loop sr cr cands 0).1, true⟩, Except.ok (),
          c.close.2 ++ SysCall.getaddrinfoCall host port ::
            ((connect_loop sr cr cands 0).2 ++ [SysCall.freeaddrinfoCall])⟩) := by
  unfold TcpClient.connect
  simp [hh]

/-- connect with a nonempty host, resolved candidates and a first successful
candidate `k`: the outcome adopts candidate k's socket and performs exactly
the attempts for candidates `0..k` between resolution and the release of the
candidate list. -/
theorem connect_success_case (c : TcpClient) (host : String) (port : Nat)
    (cands : List Candidate) (sr cr : Nat → Int) (d : String)
    (hh : host.isEmpty = false) (k : Nat) (hk : k < cands.length)
    (hsucc : attemptSucceeds sr cr k)
    (hmin : ∀ j, j < k → ¬ attemptSucceeds sr cr j) :
    c.connect host port (Except.ok cands) sr cr d =
      ⟨⟨sr k, true⟩, Except.ok (),
        c.close.2 ++ SysCall.getaddrinfoCall host port ::
          (joinUpTo (fun j => attemptCalls sr cr (cands.getD j default) j) (k + 1)
            ++ [SysCall.freeaddrinfoCall])⟩ := by
  have hs0 : attemptSucceeds sr cr (0 + k) := by rwa [Nat.zero_add]
  have hm0 : ∀ j, j < k → ¬ attemptSucceeds sr cr (0 + j) := by
    intro j hj
    rw [Nat.zero_add]
    exact hmin j hj
  have hloop := connect_loop_first_success sr cr cands 0 k hk hs0 hm0
  have hfun : (fun j => attemptCalls sr cr (cands.getD j default) (0 + j))
      = (fun j => attemptCalls sr cr (cands.getD j default) j) := by
    funext j
    rw [Nat.zero_add]
  rw [hfun, Nat.zero_add] at hloop
  rw [connect_ok_unfold c host port cands sr cr d hh, hloop]
  simp [hsucc.1]

/-- connect with a nonempty host and resolved candidates none of which
succeeds: the outcome is the ConnectionError with the sentinel state after
every candidate has been attempted in order. -/
theorem connect_fail_case (c : TcpClient) (host : String) (port : Nat)
    (cands : List Candidate) (sr cr : Nat → Int) (d : String)
    (hh : host.isEmpty = false)
    (hall : ∀ j, j < cands.length → ¬ attemptSucceeds sr cr j) :
    c.connect host port (Except.ok cands) sr cr d =
      ⟨⟨invalid_socket, false⟩,
        Except.error (Err.runtimeError ("connect failed: " ++ d)),
        c.close.2 ++ SysCall.getaddrinfoCall host port ::
          (joinUpTo (fun j => attemptCalls sr cr (cands.getD j default) j) cands.length
            ++ [SysCall.freeaddrinfoCall])⟩ := by
  have hm0 : ∀ j, j < cands.length → ¬ attemptSucceeds sr cr (0 + j) := by
    intro j hj
    rw [Nat.zero_add]
    exact hall j hj
  have hloop := connect_loop_all_fail sr cr cands 0 hm0
  have hfun : (fun j => attemptCalls sr cr (cands.getD j default) (0 + j))
      = (fun j => attemptCalls sr cr (cands.getD j default) j) := by
    funext j
    rw [Nat.zero_add]
  rw [hfun] at hloop
  rw [connect_ok_unfold c host port cands sr cr d hh, hloop]
  simp [close_fst]

/-- C5: connect iterates the resolved candidates in resolver-provided order;
for each candidate it opens a socket matching that candidate's
family/socktype/protocol and attempts a blocking connect (`attemptCalls`
spells out the per-candidate system calls, including the close of a failed
candidate's socket before advancing); it stops at and adopts the first
successful candidate's socket; and it throws the ConnectionError exactly
when every candidate has failed. -/
theorem connect_candidate_policy (c : TcpClient) (host : String) (port : Nat)
    (cands : List Candidate) (socketRes connectRes : Nat → Int) (d : String)
    (hh : host.isEmpty = false) :
    (∀ k, k < cands.length → attemptSucceeds socketRes connectRes k →
      (∀ j, j < k → ¬ attemptSucceeds socketRes connectRes j) →
      (c.connect host port (Except.ok cands) socketRes connectRes d).result
          = Except.ok () ∧
      (c.connect host port (Except.ok cands) socketRes connectRes d).state
          = ⟨socketRes k, true⟩ ∧
      (c.connect host port (Except.ok cands) socketRes connectRes d).calls
          = c.close.2 ++ SysCall.getaddrinfoCall host port ::
              (joinUpTo (fun j => attemptCalls socketRes connectRes (cands.getD j default) j)
                  (k + 1) ++ [SysCall.freeaddrinfoCall])) ∧
    ((∀ j, j < cands.length → ¬ attemptSucceeds socketRes connectRes j) →
      (c.connect host port (Except.ok cands) socketRes connectRes d).result
          = Except.error (Err.runtimeError ("connect failed: " ++ d)) ∧
      (c.connect host port (Except.ok cands) socketRes connectRes d).calls
          = c.close.2 ++ SysCall.getaddrinfoCall host port ::
              (joinUpTo (fun j => attemptCalls socketRes connectRes (cands.getD j default) j)
                  cands.length ++ [SysCall.freeaddrinfoCall])) ∧
    ((c.connect host port (Except.ok cands) socketRes connectRes d).result
          = Except.error (Err.runtimeError ("connect failed: " ++ d))
        ↔ ∀ j, j < cands.length → ¬ attemptSucceeds socketRes connectRes j) := by
  refine ⟨?_, ?_, ?_⟩
  · intro k hk hsucc hmin
    rw [connect_success_case c host port cands socketRes connectRes d hh k hk hsucc hmin]
    exact ⟨rfl, rfl, rfl⟩
  · intro hall
    rw [connect_fail_case c host port cands socketRes connectRes d hh hall]
    exact ⟨rfl, rfl⟩
  · constructor
    · intro herr
      by_contra hnot
      push_neg at hnot
      obtain ⟨j, hj, hsj⟩ := hnot
      have hex : ∃ m, m < cands.length ∧ attemptSucceeds socketRes connectRes m :=
        ⟨j, hj, hsj⟩
      obtain ⟨hklen, hksucc⟩ := Nat.find_spec hex
      have hmin : ∀ m, m < Nat.find hex → ¬ attemptSucceeds socketRes connectRes m := by
        intro m hm hsm
        exact Nat.find_min hex hm ⟨by omega, hsm⟩
      have hcase := connect_success_case c host port cands socketRes connectRes d hh
        (Nat.find hex) hklen hksucc hmin
      rw [hcase] at herr
      exact absurd herr (by simp)
    · intro hall
      rw [connect_fail_case c host port cands socketRes connectRes d hh hall]

theorem connect_candidate_policy_witness :
    (TcpClient.init.connect "h" 80
        (Except.ok [⟨2, 1, 6⟩, ⟨10, 1, 6⟩, ⟨2, 1, 6⟩])
        (fun i => if i = 0 then -1 else if i = 1 then 7 else 8)
        (fun i => if i = 2 then 0 else -1) "e").result = Except.ok () ∧
    (TcpClient.init.connect "h" 80
        (Except.ok [⟨2, 1, 6⟩, ⟨10, 1, 6⟩, ⟨2, 1, 6⟩])
        (fun i => if i = 0 then -1 else if i = 1 then 7 else 8)
        (fun i => if i = 2 then 0 else -1) "e").state = ⟨8, true⟩ := by
  have h := (connect_candidate_policy TcpClient.init "h" 80
      [⟨2, 1, 6⟩, ⟨10, 1, 6⟩, ⟨2, 1, 6⟩]
      (fun i => if i = 0 then -1 else if i = 1 then 7 else 8)
      (fun i => if i = 2 then 0 else -1) "e" rfl).1 2 (by decide)
      (by decide) (by intro j hj; interval_cases j <;> decide)
  exact ⟨h.1, h.2.1⟩
